import Mathlib

/-!
Shallow embedding of `cmd/tendermint/commands/lite.go`: the light-client
proxy subcommand of the Tendermint fork.  The file models the provider
store (`saveProviders` / `checkForExistingProviders`), the bootstrap
decision and verification-strategy selection inside `runProxy`, the
write-timeout adjustment, and the run lifecycle as a function of the
parsed flags, the opened store, and injected collaborator outcomes.
-/

namespace Lite

/-- Go strings are modelled as lists of characters. -/
abbrev GoStr := List Char

/-- Go `strings.Split(s, ",")`: splits at every comma; in particular
`Split("", ",")` yields `[""]`, the singleton empty string. -/
def goSplitComma (s : GoStr) : List GoStr := s.splitOn ','

/-- Go `strings.Join(ws, ",")`: comma-joined witness addresses. -/
def goJoinComma (ws : List GoStr) : GoStr := List.intercalate [','] ws

/-- Write-or-insert on the entry list backing the store: overwrites the
value at an existing key, otherwise appends the new entry. -/
def setEntries : List (GoStr × GoStr) → GoStr → GoStr → List (GoStr × GoStr)
  | [], k, v => [(k, v)]
  | (k0, v0) :: rest, k, v =>
    if k0 = k then (k, v) :: rest else (k0, v0) :: setEntries rest k v

/-- Lookup on the entry list backing the store. -/
def getEntries : List (GoStr × GoStr) → GoStr → Option GoStr
  | [], _ => none
  | (k0, v0) :: rest, k => if k0 = k then some v0 else getEntries rest k

/-- The `dbm.DB` key-value store, restricted to the string keys and values
that `lite.go` uses. -/
structure DB where
  entries : List (GoStr × GoStr)
  deriving DecidableEq

/-- `db.Set(k, v)`. -/
def DB.set (db : DB) (k v : GoStr) : DB := ⟨setEntries db.entries k v⟩

/-- `db.Get(k)`: `none` models Go's `nil` byte slice for an absent key
(the modelled store is healthy, so `Get` never errors). -/
def DB.get (db : DB) (k : GoStr) : Option GoStr := getEntries db.entries k

/-- The store key `"p"` holding the primary address. -/
def pKey : GoStr := ['p']

/-- The store key `"w"` holding the comma-joined witness addresses. -/
def wKey : GoStr := ['w']

/-- `checkForExistingProviders` (lite.go:233-244): reads the `"p"` and
`"w"` entries and splits the witnesses on commas.  In Go, `string(nil)`
is `""`, so an absent key reads back as the empty string. -/
def checkForExistingProviders (db : DB) : GoStr × List GoStr :=
  let primaryBytes := (db.get pKey).getD []
  let witnessesBytes := (db.get wKey).getD []
  (primaryBytes, goSplitComma witnessesBytes)

/-- `saveProviders` (lite.go:246-256): writes the primary under `"p"` and
the comma-joined witness string under `"w"`. -/
def saveProviders (db : DB) (primaryAddr witnessesAddrs : GoStr) : DB :=
  (db.set pKey primaryAddr).set wKey witnessesAddrs

/-- The two verification strategies attachable to the light client. -/
inductive Strategy where
  | sequentialVerification
  | skippingVerification
  deriving DecidableEq

/-- Fresh bootstrap (`light.NewHTTPClient`) versus resume from the trusted
store (`light.NewHTTPClientFromTrustedStore`). -/
inductive Mode where
  | fresh
  | resume
  deriving DecidableEq

/-- The branch condition at lite.go:140:
`trustedHeight > 0 && len(trustedHash) > 0` selects the fresh path,
anything else the resume path. -/
def bootstrapMode (trustedHeight : Int) (trustedHash : List Nat) : Mode :=
  if 0 < trustedHeight ∧ trustedHash ≠ [] then Mode.fresh else Mode.resume

/-- The four construction branches at lite.go:141-191.  On the fresh path
`sequential = true` attaches `light.SequentialVerification()` and
`sequential = false` attaches `light.SkippingVerification(trustLevel)`.
On the resume path the source attaches `light.SkippingVerification` when
`sequential` is true and `light.SequentialVerification` when it is false,
exactly as written at lite.go:171-191. -/
def verificationStrategy (mode : Mode) (sequential : Bool) : Strategy :=
  match mode with
  | Mode.fresh =>
    if sequential then Strategy.sequentialVerification else Strategy.skippingVerification
  | Mode.resume =>
    if sequential then Strategy.skippingVerification else Strategy.sequentialVerification

/-- Decimal digit-string reading used by the modelled fraction constructor;
empty strings and non-digit characters are rejected. -/
def parseDigits (s : GoStr) : Option Nat :=
  match s with
  | [] => none
  | _ :: _ =>
    s.foldlM (fun acc c => if c.isDigit then some (10 * acc + (c.toNat - 48)) else none) 0

/-- Modelled from the spec: `tmmath.NewFraction` lives in
`libs/math` of this repository, which is not among the provided source
files.  Per the spec ("Validate the trust-level fraction string; fail with
`InvalidTrustLevel` if it does not parse or falls outside `[1/3, 1]`"), it
reads a string of the form `a/b` and rejects it when it does not parse or
when `a/b` lies outside `[1/3, 1]` (equivalently `b ≤ 3·a` and `a ≤ b`
with `b ≠ 0`). -/
def newFraction (s : GoStr) : Option (Nat × Nat) :=
  match s.splitOn '/' with
  | [numStr, denStr] =>
    match parseDigits numStr, parseDigits denStr with
    | some num, some den =>
      if den ≠ 0 ∧ den ≤ 3 * num ∧ num ≤ den then some (num, den) else none
    | _, _ => none
  | _ => none

/-- The package-level flag variables of `lite.go` after CLI parsing, plus
the positional chain identifier; durations are Go nanosecond counts. -/
structure Flags where
  primaryAddr : GoStr
  witnessAddrsJoined : GoStr
  sequential : Bool
  trustingPeriod : Int
  trustedHeight : Int
  trustedHash : List Nat
  trustLevelStr : GoStr
  deriving DecidableEq

/-- Outcome of `p.ListenAndServe()`: the listener-closed condition
produced by the shutdown path (`http.ErrServerClosed`), or some other
listener/serve-time error. -/
inductive ServeResult where
  | serverClosed
  | otherErr (e : GoStr)
  deriving DecidableEq

/-- Injected outcomes of the external collaborators called by `runProxy`:
whether `saveProviders` fails, whether verifying-client construction
fails, whether the RPC transport client construction fails, and how the
serve loop ends. -/
structure Faults where
  saveFails : Bool
  clientConstructionFails : Bool
  rpcClientFails : Bool
  serveResult : ServeResult
  deriving DecidableEq

/-- The early-return errors of `runProxy`. -/
inductive RunError where
  | missingPrimary
  | invalidTrustLevel
  | clientConstructionFailed
  | rpcClientFailed
  deriving DecidableEq

/-- Ordered trace of the observable collaborator calls made by
`runProxy`. -/
inductive Event where
  | saveAttempted (ok : Bool)
  | clientConstructed
  | rpcClientConstructed
  | listenerBind
  | servedAndLoggedErr (e : GoStr)
  deriving DecidableEq

/-- The arguments of the verifying-client construction call: which
bootstrap path, which verification strategy, and the primary and witness
addresses passed to it. -/
structure ClientCall where
  mode : Mode
  strategy : Strategy
  primaryAddr : GoStr
  witnesses : List GoStr
  deriving DecidableEq

/-- What a `runProxy` invocation produces: the returned error (`none` is
Go's `nil`), the final store contents, the verifying-client construction
call if one was made, and the ordered event trace. -/
structure RunOutcome where
  result : Option RunError
  db : DB
  clientCall : Option ClientCall
  trace : List Event
  deriving DecidableEq

/-- The witness-list computation at lite.go:105-110: split the `-w` flag
on commas, but replace the result with the empty list when the flag is
the empty string. -/
def flagWitnesses (witnessAddrsJoined : GoStr) : List GoStr :=
  let witnessesAddrs := goSplitComma witnessAddrsJoined
  if witnessAddrsJoined = [] then [] else witnessesAddrs

/-- The verifying-client construction call of lite.go:140-192, with mode
and strategy exactly as the source's branch structure selects them. -/
def clientCallOf (flags : Flags) (primaryAddr : GoStr) (witnessesAddrs : List GoStr) :
    ClientCall :=
  ⟨bootstrapMode flags.trustedHeight flags.trustedHash,
   verificationStrategy (bootstrapMode flags.trustedHeight flags.trustedHash) flags.sequential,
   primaryAddr, witnessesAddrs⟩

/-- The tail of `runProxy` after provider resolution (lite.go:134-230):
trust-level validation, the four-way verifying-client construction, the
RPC transport client, the listener bind and serve loop, and the final
`return nil`.  `pre` is the event trace accumulated by the provider
phase and `db` the store as that phase left it. -/
def runAfterProviders (flags : Flags) (clientConstructionFails rpcClientFails : Bool)
    (serveResult : ServeResult) (db : DB) (pre : List Event)
    (primaryAddr : GoStr) (witnessesAddrs : List GoStr) : RunOutcome :=
  match newFraction flags.trustLevelStr with
  | none => ⟨some RunError.invalidTrustLevel, db, none, pre⟩
  | some _ =>
    if clientConstructionFails then
      ⟨some RunError.clientConstructionFailed, db,
        some (clientCallOf flags primaryAddr witnessesAddrs),
        pre ++ [Event.clientConstructed]⟩
    else if rpcClientFails then
      ⟨some RunError.rpcClientFailed, db,
        some (clientCallOf flags primaryAddr witnessesAddrs),
        pre ++ [Event.clientConstructed, Event.rpcClientConstructed]⟩
    else
      match serveResult with
      | ServeResult.serverClosed =>
        ⟨none, db, some (clientCallOf flags primaryAddr witnessesAddrs),
          pre ++ [Event.clientConstructed, Event.rpcClientConstructed, Event.listenerBind]⟩
      | ServeResult.otherErr e =>
        ⟨none, db, some (clientCallOf flags primaryAddr witnessesAddrs),
          pre ++ [Event.clientConstructed, Event.rpcClientConstructed, Event.listenerBind,
                  Event.servedAndLoggedErr e]⟩

/-- `runProxy` (lite.go:91-231) as a function of the parsed flags, the
opened store, and the injected collaborator outcomes.  With no `-p` flag
the providers are loaded from the store and a missing primary aborts the
run; with an explicit `-p` the providers are saved first (a save failure
is only logged) and then the run continues. -/
def runProxy (flags : Flags) (db : DB) (faults : Faults) : RunOutcome :=
  if flags.primaryAddr = [] then
    if (checkForExistingProviders db).1 = [] then
      ⟨some RunError.missingPrimary, db, none, []⟩
    else
      runAfterProviders flags faults.clientConstructionFails faults.rpcClientFails
        faults.serveResult db [] (checkForExistingProviders db).1 (checkForExistingProviders db).2
  else
    if faults.saveFails then
      runAfterProviders flags faults.clientConstructionFails faults.rpcClientFails
        faults.serveResult db [Event.saveAttempted false] flags.primaryAddr
        (flagWitnesses flags.witnessAddrsJoined)
    else
      runAfterProviders flags faults.clientConstructionFails faults.rpcClientFails
        faults.serveResult (saveProviders db flags.primaryAddr flags.witnessAddrsJoined)
        [Event.saveAttempted true] flags.primaryAddr
        (flagWitnesses flags.witnessAddrsJoined)

/-- `time.Second` in Go's nanosecond `Duration` units. -/
def second : Int := 1000000000

/-- The write-timeout adjustment at lite.go:206-211: if the configured
`WriteTimeout` does not exceed `TimeoutBroadcastTxCommit`, raise it to
`TimeoutBroadcastTxCommit + 1s`; otherwise leave it alone. -/
def adjustWriteTimeout (writeTimeout timeoutBroadcastTxCommit : Int) : Int :=
  if writeTimeout ≤ timeoutBroadcastTxCommit then timeoutBroadcastTxCommit + second
  else writeTimeout

/-- A sample parsed-flag record: primary `a`, no witnesses, skipping
verification, trusted height 100, a one-byte trusted hash, trust level
`1/3`. -/
def sampleFlags : Flags := ⟨['a'], [], false, 168, 100, [222], ['1', '/', '3']⟩

/-- An empty provider store. -/
def emptyDB : DB := ⟨[]⟩

/-- Collaborator outcomes with no injected failures and a normal
listener-closed shutdown. -/
def okFaults : Faults := ⟨false, false, false, ServeResult.serverClosed⟩

/-- A flag record with no `-p` primary and the source's defaults for
height (1) and hash (empty), selecting the resume path. -/
def noPrimaryFlags : Flags := ⟨[], [], false, 168, 1, [], ['1', '/', '3']⟩

/-- A flag record whose trust level `9/3` lies outside `[1/3, 1]`. -/
def badTrustFlags : Flags := ⟨['a'], [], false, 168, 100, [222], ['9', '/', '3']⟩

/-- Collaborator outcomes whose serve loop ends with an error other than
the listener-closed condition. -/
def errFaults : Faults := ⟨false, false, false, ServeResult.otherErr ['x']⟩

/-! ### Store lemmas -/

theorem getEntries_setEntries_same (l : List (GoStr × GoStr)) (k v : GoStr) :
    getEntries (setEntries l k v) k = some v := by
  induction l with
  | nil => simp [setEntries, getEntries]
  | cons hd tl ih =>
    obtain ⟨k0, v0⟩ := hd
    by_cases h : k0 = k
    · simp [setEntries, getEntries, h]
    · simp [setEntries, getEntries, h, ih]

theorem getEntries_setEntries_other (l : List (GoStr × GoStr)) (k k' v : GoStr)
    (h : k' ≠ k) : getEntries (setEntries l k v) k' = getEntries l k' := by
  have hk : k ≠ k' := Ne.symm h
  induction l with
  | nil => simp [setEntries, getEntries, hk]
  | cons hd tl ih =>
    obtain ⟨k0, v0⟩ := hd
    by_cases h0 : k0 = k
    · subst h0
      simp [setEntries, getEntries, hk]
    · simp [setEntries, getEntries, h0, ih]

theorem setEntries_eq_of_get (l : List (GoStr × GoStr)) (k v : GoStr)
    (h : getEntries l k = some v) : setEntries l k v = l := by
  induction l with
  | nil => simp [getEntries] at h
  | cons hd tl ih =>
    obtain ⟨k0, v0⟩ := hd
    by_cases h0 : k0 = k
    · subst h0
      simp [getEntries] at h
      simp [setEntries, h]
    · simp [getEntries, h0] at h
      simp [setEntries, h0, ih h]

theorem pKey_ne_wKey : pKey ≠ wKey := by decide

theorem get_saveProviders_p (db : DB) (p w : GoStr) :
    (saveProviders db p w).get pKey = some p := by
  obtain ⟨l⟩ := db
  show getEntries (setEntries (setEntries l pKey p) wKey w) pKey = some p
  rw [getEntries_setEntries_other _ _ _ _ pKey_ne_wKey, getEntries_setEntries_same]

theorem get_saveProviders_w (db : DB) (p w : GoStr) :
    (saveProviders db p w).get wKey = some w := by
  obtain ⟨l⟩ := db
  show getEntries (setEntries (setEntries l pKey p) wKey w) wKey = some w
  rw [getEntries_setEntries_same]

/-! ### Run-lifecycle lemmas -/

theorem runAfterProviders_clientCall_eq (flags : Flags) (ccf rcf : Bool) (sr : ServeResult)
    (db : DB) (pre : List Event) (pA : GoStr) (wAs : List GoStr) (call : ClientCall)
    (h : (runAfterProviders flags ccf rcf sr db pre pA wAs).clientCall = some call) :
    call = clientCallOf flags pA wAs := by
  unfold runAfterProviders at h
  split at h
  · simp at h
  · split at h
    · simp at h
      exact h.symm
    · split at h
      · simp at h
        exact h.symm
      · split at h
        · simp at h
          exact h.symm
        · simp at h
          exact h.symm

theorem runAfterProviders_result_indep (flags : Flags) (ccf rcf : Bool) (sr : ServeResult)
    (db db' : DB) (pre pre' : List Event) (pA pA' : GoStr) (wAs wAs' : List GoStr) :
    (runAfterProviders flags ccf rcf sr db pre pA wAs).result =
      (runAfterProviders flags ccf rcf sr db' pre' pA' wAs').result := by
  unfold runAfterProviders
  cases hnf : newFraction flags.trustLevelStr with
  | none => rfl
  | some f => cases ccf <;> cases rcf <;> cases sr <;> rfl

theorem runAfterProviders_db_eq (flags : Flags) (ccf rcf : Bool) (sr : ServeResult)
    (db : DB) (pre : List Event) (pA : GoStr) (wAs : List GoStr) :
    (runAfterProviders flags ccf rcf sr db pre pA wAs).db = db := by
  unfold runAfterProviders
  cases hnf : newFraction flags.trustLevelStr with
  | none => rfl
  | some f => cases ccf <;> cases rcf <;> cases sr <;> rfl

theorem runAfterProviders_trace_pre (flags : Flags) (ccf rcf : Bool) (sr : ServeResult)
    (db : DB) (pre : List Event) (pA : GoStr) (wAs : List GoStr) :
    ∃ rest, (runAfterProviders flags ccf rcf sr db pre pA wAs).trace = pre ++ rest := by
  unfold runAfterProviders
  cases hnf : newFraction flags.trustLevelStr with
  | none => exact ⟨[], by simp⟩
  | some f => cases ccf <;> cases rcf <;> cases sr <;> exact ⟨_, rfl⟩

theorem runAfterProviders_no_faults (flags : Flags) (sr : ServeResult) (db : DB)
    (pre : List Event) (pA : GoStr) (wAs : List GoStr) (f : Nat × Nat)
    (hf : newFraction flags.trustLevelStr = some f) :
    runAfterProviders flags false false sr db pre pA wAs =
      match sr with
      | ServeResult.serverClosed =>
        ⟨none, db, some (clientCallOf flags pA wAs),
          pre ++ [Event.clientConstructed, Event.rpcClientConstructed, Event.listenerBind]⟩
      | ServeResult.otherErr e =>
        ⟨none, db, some (clientCallOf flags pA wAs),
          pre ++ [Event.clientConstructed, Event.rpcClientConstructed, Event.listenerBind,
                  Event.servedAndLoggedErr e]⟩ := by
  unfold runAfterProviders
  rw [hf]
  cases sr <;> rfl

/-! ### Claim theorems -/

/-- C1: the claim fails on the code — at the failing input (resume path:
height 0, empty hash, `sequential = true`) `runProxy` makes the
verifying-client construction call with skipping verification, while the
same flag value on the fresh path selects sequential verification; the
flag's sense is inverted on the resume path, contradicting the flag's own
help text. -/
theorem c1_sequential_flag_inverted_on_resume :
    (runProxy ⟨['a'], [], true, 168, 0, [], ['1', '/', '3']⟩ emptyDB okFaults).clientCall =
      some ⟨Mode.resume, Strategy.skippingVerification, ['a'], []⟩ ∧
    verificationStrategy Mode.fresh true = Strategy.sequentialVerification ∧
    verificationStrategy Mode.resume true ≠ verificationStrategy Mode.fresh true := by
  decide

/-- C2: the bootstrap mode is decided solely by the conjunction
`height > 0 AND hash non-empty`: whenever `runProxy` makes a
verifying-client construction call — against any Provider Store contents
and any collaborator outcomes — the call's mode is
`bootstrapMode height hash`, and that mode is `fresh` exactly when both
conditions hold, so neither height alone nor hash alone selects fresh. -/
theorem c2_mode_decided_by_height_and_hash (flags : Flags) (db : DB) (faults : Faults)
    (call : ClientCall) (hcall : (runProxy flags db faults).clientCall = some call) :
    call.mode = bootstrapMode flags.trustedHeight flags.trustedHash ∧
    (bootstrapMode flags.trustedHeight flags.trustedHash = Mode.fresh ↔
      0 < flags.trustedHeight ∧ flags.trustedHash ≠ []) := by
  constructor
  · unfold runProxy at hcall
    split at hcall
    · split at hcall
      · simp at hcall
      · rw [runAfterProviders_clientCall_eq _ _ _ _ _ _ _ _ _ hcall]
        rfl
    · split at hcall
      · rw [runAfterProviders_clientCall_eq _ _ _ _ _ _ _ _ _ hcall]
        rfl
      · rw [runAfterProviders_clientCall_eq _ _ _ _ _ _ _ _ _ hcall]
        rfl
  · by_cases hc : 0 < flags.trustedHeight ∧ flags.trustedHash ≠ []
    · simp [bootstrapMode, hc]
    · simp only [bootstrapMode, if_neg hc]
      simp [hc]

/-- C2 witness: the theorem applied to a concrete fresh-bootstrap run. -/
theorem c2_mode_decided_by_height_and_hash_witness :
    (⟨Mode.fresh, Strategy.skippingVerification, ['a'], []⟩ : ClientCall).mode =
      bootstrapMode sampleFlags.trustedHeight sampleFlags.trustedHash ∧
    (bootstrapMode sampleFlags.trustedHeight sampleFlags.trustedHash = Mode.fresh ↔
      0 < sampleFlags.trustedHeight ∧ sampleFlags.trustedHash ≠ []) :=
  c2_mode_decided_by_height_and_hash sampleFlags emptyDB okFaults
    ⟨Mode.fresh, Strategy.skippingVerification, ['a'], []⟩ (by decide)

/-- C3: with no `-p` flag and no primary entry in the Provider Store, the
run fails with the missing-primary error, no verifying-client construction
call is made, and the event trace is empty — in particular no listener
bind is attempted. -/
theorem c3_missing_primary_fails_early (flags : Flags) (db : DB) (faults : Faults)
    (hp : flags.primaryAddr = []) (hstore : db.get pKey = none) :
    (runProxy flags db faults).result = some RunError.missingPrimary ∧
    (runProxy flags db faults).clientCall = none ∧
    (runProxy flags db faults).trace = [] := by
  have h1 : (checkForExistingProviders db).1 = [] := by
    simp [checkForExistingProviders, hstore]
  unfold runProxy
  rw [if_pos hp, if_pos h1]
  exact ⟨rfl, rfl, rfl⟩

/-- C3 witness: the theorem applied to the empty store. -/
theorem c3_missing_primary_fails_early_witness :
    (runProxy noPrimaryFlags emptyDB okFaults).result = some RunError.missingPrimary ∧
    (runProxy noPrimaryFlags emptyDB okFaults).clientCall = none ∧
    (runProxy noPrimaryFlags emptyDB okFaults).trace = [] :=
  c3_missing_primary_fails_early noPrimaryFlags emptyDB okFaults rfl rfl

/-- C4: the claim fails on the code at the empty witness sequence — saving
it stores the empty joined string, and loading splits that back into a
one-element sequence holding the empty string, not the empty sequence. -/
theorem c4_empty_sequence_breaks_round_trip :
    (checkForExistingProviders (saveProviders emptyDB ['a'] (goJoinComma []))).2 ≠
      ([] : List GoStr) := by
  decide

/-- C4 (amended): for every store, primary, and non-empty witness sequence
whose addresses contain no comma, saving the comma-joined witnesses and
then loading returns exactly the same primary and the same witness
sequence in the same order. -/
theorem c4_round_trip (db : DB) (p : GoStr) (ws : List GoStr)
    (hne : ws ≠ []) (hcomma : ∀ w ∈ ws, ',' ∉ w) :
    checkForExistingProviders (saveProviders db p (goJoinComma ws)) = (p, ws) := by
  simp only [checkForExistingProviders, get_saveProviders_p, get_saveProviders_w,
    Option.getD_some, goSplitComma, goJoinComma, Prod.mk.injEq]
  exact ⟨trivial, List.splitOn_intercalate ws ',' hcomma hne⟩

/-- C4 witness: the amended theorem applied to two concrete witnesses. -/
theorem c4_round_trip_witness :
    checkForExistingProviders (saveProviders emptyDB ['a'] (goJoinComma [['b'], ['c']])) =
      (['a'], [['b'], ['c']]) :=
  c4_round_trip emptyDB ['a'] [['b'], ['c']] (by decide) (by decide)

/-- C5: with a trust-level string the fraction reader rejects (unparsable
or outside `[1/3, 1]`), any invocation that resolves a primary fails with
the invalid-trust-level error, with no verifying-client construction call
and no RPC-client, bind, or serve event in the trace — so before any
network I/O. -/
theorem c5_invalid_trust_level_fails_before_io (flags : Flags) (db : DB) (faults : Faults)
    (hbad : newFraction flags.trustLevelStr = none)
    (hprim : flags.primaryAddr ≠ [] ∨ (checkForExistingProviders db).1 ≠ []) :
    (runProxy flags db faults).result = some RunError.invalidTrustLevel ∧
    (runProxy flags db faults).clientCall = none ∧
    Event.clientConstructed ∉ (runProxy flags db faults).trace ∧
    Event.rpcClientConstructed ∉ (runProxy flags db faults).trace ∧
    Event.listenerBind ∉ (runProxy flags db faults).trace := by
  have key : ∀ (db' : DB) (pre : List Event) (pA : GoStr) (wAs : List GoStr),
      runAfterProviders flags faults.clientConstructionFails faults.rpcClientFails
        faults.serveResult db' pre pA wAs =
        ⟨some RunError.invalidTrustLevel, db', none, pre⟩ := by
    intro db' pre pA wAs
    unfold runAfterProviders
    rw [hbad]
  unfold runProxy
  by_cases hp : flags.primaryAddr = []
  · rcases hprim with hprim | hprim
    · exact absurd hp hprim
    · rw [if_pos hp, if_neg hprim, key]
      refine ⟨rfl, rfl, ?_, ?_, ?_⟩ <;> simp
  · rw [if_neg hp]
    by_cases hsf : faults.saveFails = true
    · rw [if_pos hsf, key]
      refine ⟨rfl, rfl, ?_, ?_, ?_⟩ <;> simp
    · rw [if_neg hsf, key]
      refine ⟨rfl, rfl, ?_, ?_, ?_⟩ <;> simp

/-- C5 witness: the theorem applied to the out-of-range trust level
`9/3`. -/
theorem c5_invalid_trust_level_fails_before_io_witness :
    (runProxy badTrustFlags emptyDB okFaults).result = some RunError.invalidTrustLevel ∧
    (runProxy badTrustFlags emptyDB okFaults).clientCall = none ∧
    Event.clientConstructed ∉ (runProxy badTrustFlags emptyDB okFaults).trace ∧
    Event.rpcClientConstructed ∉ (runProxy badTrustFlags emptyDB okFaults).trace ∧
    Event.listenerBind ∉ (runProxy badTrustFlags emptyDB okFaults).trace :=
  c5_invalid_trust_level_fails_before_io badTrustFlags emptyDB okFaults (by decide)
    (Or.inl (by decide))

/-- C6: the claim fails on the code — at a concrete run whose serve loop
ends with an error other than the listener-closed condition, `runProxy`
logs the error but still returns `nil` (success) instead of returning that
error to its caller. -/
theorem c6_serve_error_not_returned :
    Event.servedAndLoggedErr ['x'] ∈ (runProxy sampleFlags emptyDB errFaults).trace ∧
    (runProxy sampleFlags emptyDB errFaults).result = none := by
  decide

/-- C6 (amended): when the serve loop is reached, the normal
listener-closed ending is treated as success and nothing is logged; any
other serve-time error is logged, but the run call still returns success
(`nil`) rather than that error. -/
theorem c6_serve_end_always_success (flags : Flags) (db : DB) (faults : Faults)
    (hp : flags.primaryAddr ≠ [])
    (hfrac : (newFraction flags.trustLevelStr).isSome = true)
    (hcc : faults.clientConstructionFails = false)
    (hrc : faults.rpcClientFails = false) :
    (runProxy flags db faults).result = none ∧
    (∀ e, faults.serveResult = ServeResult.otherErr e →
      Event.servedAndLoggedErr e ∈ (runProxy flags db faults).trace) ∧
    (faults.serveResult = ServeResult.serverClosed →
      ∀ e, Event.servedAndLoggedErr e ∉ (runProxy flags db faults).trace) := by
  obtain ⟨f, hf⟩ := Option.isSome_iff_exists.mp hfrac
  unfold runProxy
  rw [if_neg hp, hcc, hrc]
  cases hsr : faults.serveResult with
  | serverClosed =>
    by_cases hsf : faults.saveFails = true
    · rw [if_pos hsf, runAfterProviders_no_faults _ _ _ _ _ _ f hf]
      refine ⟨rfl, ?_, ?_⟩
      · intro e he
        exact absurd he (by simp)
      · intro _ e
        simp
    · rw [if_neg hsf, runAfterProviders_no_faults _ _ _ _ _ _ f hf]
      refine ⟨rfl, ?_, ?_⟩
      · intro e he
        exact absurd he (by simp)
      · intro _ e
        simp
  | otherErr e0 =>
    by_cases hsf : faults.saveFails = true
    · rw [if_pos hsf, runAfterProviders_no_faults _ _ _ _ _ _ f hf]
      refine ⟨rfl, ?_, ?_⟩
      · intro e he
        have he0 : e = e0 := by
          cases he
          rfl
        subst he0
        simp
      · intro hcl
        exact absurd hcl (by simp)
    · rw [if_neg hsf, runAfterProviders_no_faults _ _ _ _ _ _ f hf]
      refine ⟨rfl, ?_, ?_⟩
      · intro e he
        have he0 : e = e0 := by
          cases he
          rfl
        subst he0
        simp
      · intro hcl
        exact absurd hcl (by simp)

/-- C6 witness: the amended theorem applied to a run whose serve loop ends
with the error `x`. -/
theorem c6_serve_end_always_success_witness :
    (runProxy sampleFlags emptyDB errFaults).result = none ∧
    (∀ e, errFaults.serveResult = ServeResult.otherErr e →
      Event.servedAndLoggedErr e ∈ (runProxy sampleFlags emptyDB errFaults).trace) ∧
    (errFaults.serveResult = ServeResult.serverClosed →
      ∀ e, Event.servedAndLoggedErr e ∉ (runProxy sampleFlags emptyDB errFaults).trace) :=
  c6_serve_end_always_success sampleFlags emptyDB errFaults (by decide) (by decide) rfl rfl

/-- C7: when the configured write timeout does not exceed the
broadcast-commit timeout, startup raises it to that timeout plus one
second — a fixed positive margin — rather than failing; when it already
exceeds it, the value is left unchanged. -/
theorem c7_write_timeout_adjusted (wt tbtc : Int) :
    (wt ≤ tbtc →
      adjustWriteTimeout wt tbtc = tbtc + second ∧ tbtc < adjustWriteTimeout wt tbtc) ∧
    (tbtc < wt → adjustWriteTimeout wt tbtc = wt) := by
  constructor
  · intro h
    unfold adjustWriteTimeout
    rw [if_pos h]
    refine ⟨rfl, ?_⟩
    unfold second
    omega
  · intro h
    unfold adjustWriteTimeout
    rw [if_neg (not_le.mpr h)]

/-- C7 witness: the theorem applied on both sides of the threshold. -/
theorem c7_write_timeout_adjusted_witness :
    (adjustWriteTimeout 5 10 = 10 + second ∧ 10 < adjustWriteTimeout 5 10) ∧
    adjustWriteTimeout 20 10 = 20 :=
  ⟨(c7_write_timeout_adjusted 5 10).1 (by decide),
   (c7_write_timeout_adjusted 20 10).2 (by decide)⟩

/-- C8: with an explicit `-p` primary, the provider save is the first
observable action of the run — so it completes, or its failure is
observed, before the verifying-client construction call — the run's
result is unaffected by a save failure, and a successful save leaves the
store holding exactly the saved primary and joined witness string. -/
theorem c8_save_before_client (flags : Flags) (db : DB) (faults : Faults)
    (hp : flags.primaryAddr ≠ []) :
    (runProxy flags db faults).trace.head? = some (Event.saveAttempted (!faults.saveFails)) ∧
    (runProxy flags db ⟨true, faults.clientConstructionFails, faults.rpcClientFails,
        faults.serveResult⟩).result =
      (runProxy flags db ⟨false, faults.clientConstructionFails, faults.rpcClientFails,
        faults.serveResult⟩).result ∧
    (faults.saveFails = false →
      (runProxy flags db faults).db =
        saveProviders db flags.primaryAddr flags.witnessAddrsJoined) := by
  refine ⟨?_, ?_, ?_⟩
  · unfold runProxy
    rw [if_neg hp]
    cases hsf : faults.saveFails with
    | true =>
      rw [if_pos rfl]
      obtain ⟨rest, hr⟩ := runAfterProviders_trace_pre flags faults.clientConstructionFails
        faults.rpcClientFails faults.serveResult db [Event.saveAttempted false]
        flags.primaryAddr (flagWitnesses flags.witnessAddrsJoined)
      rw [hr]
      rfl
    | false =>
      rw [if_neg (by simp)]
      obtain ⟨rest, hr⟩ := runAfterProviders_trace_pre flags faults.clientConstructionFails
        faults.rpcClientFails faults.serveResult
        (saveProviders db flags.primaryAddr flags.witnessAddrsJoined)
        [Event.saveAttempted true] flags.primaryAddr
        (flagWitnesses flags.witnessAddrsJoined)
      rw [hr]
      rfl
  · unfold runProxy
    rw [if_neg hp, if_neg hp]
    exact runAfterProviders_result_indep flags faults.clientConstructionFails
      faults.rpcClientFails faults.serveResult db
      (saveProviders db flags.primaryAddr flags.witnessAddrsJoined)
      [Event.saveAttempted false] [Event.saveAttempted true]
      flags.primaryAddr flags.primaryAddr
      (flagWitnesses flags.witnessAddrsJoined) (flagWitnesses flags.witnessAddrsJoined)
  · intro hsf
    unfold runProxy
    rw [if_neg hp, hsf, if_neg (by simp)]
    exact runAfterProviders_db_eq flags faults.clientConstructionFails
      faults.rpcClientFails faults.serveResult
      (saveProviders db flags.primaryAddr flags.witnessAddrsJoined)
      [Event.saveAttempted true] flags.primaryAddr
      (flagWitnesses flags.witnessAddrsJoined)

/-- C8 witness: the theorem applied to a concrete explicit-primary run. -/
theorem c8_save_before_client_witness :
    (runProxy sampleFlags emptyDB okFaults).trace.head? =
      some (Event.saveAttempted (!okFaults.saveFails)) ∧
    (runProxy sampleFlags emptyDB ⟨true, okFaults.clientConstructionFails,
        okFaults.rpcClientFails, okFaults.serveResult⟩).result =
      (runProxy sampleFlags emptyDB ⟨false, okFaults.clientConstructionFails,
        okFaults.rpcClientFails, okFaults.serveResult⟩).result ∧
    (okFaults.saveFails = false →
      (runProxy sampleFlags emptyDB okFaults).db =
        saveProviders emptyDB sampleFlags.primaryAddr sampleFlags.witnessAddrsJoined) :=
  c8_save_before_client sampleFlags emptyDB okFaults (by decide)

/-- C9: performing the explicit-primary save twice with identical primary
and witness arguments leaves the Provider Store exactly as after the
first save — the second save is a no-op on the stored values. -/
theorem c9_save_idempotent (db : DB) (p w : GoStr) :
    saveProviders (saveProviders db p w) p w = saveProviders db p w := by
  have hp : getEntries (saveProviders db p w).entries pKey = some p :=
    get_saveProviders_p db p w
  have hw : getEntries (saveProviders db p w).entries wKey = some w :=
    get_saveProviders_w db p w
  show (⟨setEntries (setEntries (saveProviders db p w).entries pKey p) wKey w⟩ : DB) = _
  rw [setEntries_eq_of_get _ _ _ hp, setEntries_eq_of_get _ _ _ hw]

/-- C10: an absent (or empty) `"w"` entry loads back as the one-element
sequence holding the empty string, while an empty `-w` flag yields the
empty sequence — the empty-witness case is represented differently on the
load path than on the flag path. -/
theorem c10_empty_witness_asymmetry (db : DB)
    (h : db.get wKey = none ∨ db.get wKey = some []) :
    (checkForExistingProviders db).2 = [[]] ∧
    flagWitnesses [] = [] ∧
    (checkForExistingProviders db).2 ≠ flagWitnesses [] := by
  have h2 : (db.get wKey).getD [] = [] := by
    rcases h with h | h <;> simp [h]
  have e1 : (checkForExistingProviders db).2 = [[]] := by
    show goSplitComma ((db.get wKey).getD []) = [[]]
    rw [h2]
    decide
  exact ⟨e1, rfl, by rw [e1]; decide⟩

/-- C10 witness: the theorem applied to the empty store. -/
theorem c10_empty_witness_asymmetry_witness :
    (checkForExistingProviders emptyDB).2 = [[]] ∧
    flagWitnesses [] = [] ∧
    (checkForExistingProviders emptyDB).2 ≠ flagWitnesses [] :=
  c10_empty_witness_asymmetry emptyDB (Or.inl rfl)

end Lite
